import Mathlib

/-!
Verification of the NetflipsBot catalogue bot (bot_streaming.py).

The embedding below translates, straight from the source, the parts of the
program the specification talks about: the per-category JSON store and its
series migration (load_data), the rating modal (RatingModal.on_submit), the
pagination arithmetic (PaginatedView.create_page_embed and
PaginatedView.interaction_check), the generic add command (add_item_command),
season deletion (delserieseason), bulk season import (importseries), and the
voice-channel reconciliation pass (update_voice_channel_names_for_guild).

Modelling conventions:
* Python strings are lists of characters (Lean's builtin String functions
  are not kernel-reducible, so the Python string methods used by the bot
  are re-implemented over List Char, one definition per method).
* Python dictionaries are insertion-ordered association lists.
* A JSON record is a structure with one Option field per possible key;
  none means the key is absent.
* Python ints are Int (or Nat where the source value is a count), floats
  are rationals, and round(x, 2) is an explicit round-half-to-even at two
  decimal places, mirroring the builtin round.
-/

namespace NetflipsBot

/-- A Python string, as a list of characters. -/
abbrev Str : Type := List Char

/-- The characters of a literal. -/
def chars (s : String) : Str := s.data

/-- Python str.lower (the bot only ever stores ASCII-cased keys). -/
def pyLower (l : Str) : Str := l.map Char.toLower

/-- Python str.upper. -/
def pyUpper (l : Str) : Str := l.map Char.toUpper

/-- Python str.strip(): drop whitespace from both ends. -/
def pyStrip (l : Str) : Str :=
  ((l.dropWhile Char.isWhitespace).reverse.dropWhile Char.isWhitespace).reverse

/-- Python str.startswith. -/
def pyStartsWith : Str → Str → Bool
  | [], _ => true
  | _ :: _, [] => false
  | p :: ps, c :: cs => p = c && pyStartsWith ps cs

/-- Python membership test: ch in s. -/
def pyContainsChar (ch : Char) (l : Str) : Bool :=
  l.any (fun x => x = ch)

/-- Python str.split(sep) for a one-character separator (the bot only
splits on "," and, with maxsplit, on ":"). Note "".split(sep) == [""]. -/
def pySplitOn (sep : Char) : Str → List Str
  | [] => [[]]
  | c :: rest =>
      match pySplitOn sep rest with
      | [] => if c = sep then [[], []] else [[c]]
      | h :: t => if c = sep then [] :: h :: t else (c :: h) :: t

/-- Python str.isdigit(): non-empty and every character a digit. -/
def pyIsDigit (l : Str) : Bool :=
  !l.isEmpty && l.all Char.isDigit

/-- Python int(s) on an all-digit string. -/
def charsToNat (l : Str) : Nat :=
  l.foldl (fun acc c => acc * 10 + (c.toNat - 48)) 0

/-- Helper for str.replace(pat, "") with a non-empty pattern: scan left to
right deleting non-overlapping occurrences; the fuel argument (one unit per
character consumed) keeps the recursion structural. -/
def replaceDelAux (pat : Str) : Nat → Str → Str
  | _, [] => []
  | 0, s => s
  | fuel + 1, c :: rest =>
      if pyStartsWith pat (c :: rest) then
        replaceDelAux pat fuel ((c :: rest).drop pat.length)
      else
        c :: replaceDelAux pat fuel rest

/-- Python s.replace(pat, ""): delete every occurrence of pat. -/
def pyReplaceDel (pat s : Str) : Str :=
  if pat.isEmpty then s else replaceDelAux pat s.length s

/-- Python str.title() as used on display names: upper-case a letter that
follows a non-letter, lower-case a letter that follows a letter. -/
def pyTitleAux : Bool → Str → Str
  | _, [] => []
  | prevAlpha, c :: cs =>
      if c.isAlpha then
        (if prevAlpha then c.toLower else c.toUpper) :: pyTitleAux true cs
      else
        c :: pyTitleAux false cs

/-- Python str.title(). -/
def pyTitle (l : Str) : Str := pyTitleAux false l

/-- Decimal digits of a natural number, most significant first (the
rendering of a Python int in an f-string); fuel keeps the recursion
structural, and n + 1 units always suffice. -/
def natDigitsAux : Nat → Nat → Str
  | 0, _ => []
  | fuel + 1, n =>
      if n < 10 then [Char.ofNat (48 + n % 10)]
      else natDigitsAux fuel (n / 10) ++ [Char.ofNat (48 + n % 10)]

/-- str(n) for a natural number. -/
def natDigits (n : Nat) : Str := natDigitsAux (n + 1) n

/-! ## Data model -/

/-- A season record, as stored inside a series entry:
\x7bnumber: ..., title: ..., url: ...\x7d. -/
structure Season where
  number : Int
  title : Str
  url : Str
deriving DecidableEq, Repr

/-- A catalogue entry. Each field models one possible JSON key of an
item record; none means the key is absent from the record. -/
structure Entry where
  url : Option Str := none
  image : Option Str := none
  themes : Option (List Str) := none
  rating : Option ℚ := none
  ratings : Option (List Int) := none
  seasons : Option (List Season) := none
deriving DecidableEq

/-- A per-category collection: a Python dict keyed by lower-cased title,
modelled as an insertion-ordered association list with unique keys. -/
abbrev Collection : Type := List (Str × Entry)

/-- Membership test, as the Python expression: key in data. -/
def dictContains (d : Collection) (k : Str) : Bool :=
  d.any (fun p => p.1 = k)

/-- Lookup, as the Python expression: data[key] (first binding wins). -/
def dictGet (d : Collection) (k : Str) : Option Entry :=
  (List.find? (fun p => p.1 = k) d).map (fun p => p.2)

/-- Assignment data[key] = v: replaces the value in place when the key is
present, otherwise appends the new binding (Python dict insertion order). -/
def dictSet (d : Collection) (k : Str) (v : Entry) : Collection :=
  if dictContains d k then
    d.map (fun p => if p.1 = k then (k, v) else p)
  else
    d ++ [(k, v)]

/-- Removal data.pop(key). -/
def dictPop (d : Collection) (k : Str) : Collection :=
  d.filter (fun p => ¬ (p.1 = k))

/-! ## Catalogue Store: series migration on load (load_data, lines 54-61)

For the series category, load_data rewrites every record that has a url
key and no seasons key into the season-based shape:
item_data["seasons"] = [\x7b"number": 1, "title": "Saison 1", "url": item_data["url"]\x7d]
and deletes the url key. -/

/-- The migration applied to a single series record by load_data. -/
def migrateEntry (e : Entry) : Entry :=
  match e.url, e.seasons with
  | some u, none =>
      { e with seasons := some [{ number := 1, title := chars "Saison 1", url := u }],
               url := none }
  | _, _ => e

/-- The migration pass load_data runs over the whole series collection
before returning it. -/
def loadMigrate (d : Collection) : Collection :=
  d.map (fun p => (p.1, migrateEntry p.2))

/-! ## Rating Aggregator (RatingModal.on_submit, lines 247-262)

After parsing the text input to an int, on_submit rejects notes outside
1..5, rejects missing keys, and otherwise appends the note to the ratings
list, recomputes rating = round(sum/len, 2) and saves the collection. -/

/-- Python round to the nearest integer, ties to even (the builtin round). -/
def roundHalfEven (q : ℚ) : ℤ :=
  if q - (⌊q⌋ : ℚ) < 1 / 2 then ⌊q⌋
  else if 1 / 2 < q - (⌊q⌋ : ℚ) then ⌊q⌋ + 1
  else if ⌊q⌋ % 2 = 0 then ⌊q⌋ else ⌊q⌋ + 1

/-- round(x, 2): round at two decimal places, ties to even. -/
def round2 (q : ℚ) : ℚ :=
  (roundHalfEven (q * 100) : ℚ) / 100

/-- sum(ratings) / len(ratings), the arithmetic mean used by on_submit. -/
def meanQ (l : List Int) : ℚ :=
  ((l.map (fun n => (n : ℚ))).sum) / (l.length : ℚ)

/-- Possible outcomes of RatingModal.on_submit for an integer note:
the out-of-range message, the item-not-found message, or the success
path carrying the saved collection and the refreshed entry. -/
inductive RatingOutcome where
  | outOfRange
  | notFound
  | rated (newData : Collection) (newEntry : Entry)
deriving DecidableEq

/-- RatingModal.on_submit, after int(self.rating_input.value) succeeded:
range check, key lookup, append to ratings (setdefault [] first),
recompute the rounded mean, store it and save (the updated record is both
written back under the key and returned for the re-render). -/
def ratingSubmit (d : Collection) (itemTitle : Str) (note : Int) : RatingOutcome :=
  if ¬ (1 ≤ note ∧ note ≤ 5) then .outOfRange
  else
    match dictGet d (pyLower itemTitle) with
    | none => .notFound
    | some e =>
        .rated
          (dictSet d (pyLower itemTitle)
            { e with ratings := some (e.ratings.getD [] ++ [note]),
                     rating := some (round2 (meanQ (e.ratings.getD [] ++ [note]))) })
          { e with ratings := some (e.ratings.getD [] ++ [note]),
                   rating := some (round2 (meanQ (e.ratings.getD [] ++ [note]))) }

/-- The collection persisted on disk after an on_submit call: save_data is
only reached on the success path; every other path leaves the file as it was. -/
def ratingPersisted (d : Collection) (itemTitle : Str) (note : Int) : Collection :=
  match ratingSubmit d itemTitle note with
  | .rated d' _ => d'
  | _ => d

/-! ## Generic add command (add_item_command, lines 670-698) -/

/-- The theme list comprehension: split on commas, strip and lower each. -/
def parseThemes (themes : Str) : List Str :=
  (pySplitOn ',' themes).map (fun g => pyLower (pyStrip g))

/-- The record add_item_command builds: data = \x7b"url": url, "image": image\x7d,
plus a themes key when the themes argument is truthy (non-None, non-empty). -/
def mkItemEntry (url : Str) (image : Option Str) (themes : Option Str) : Entry :=
  { url := some url
    image := image
    themes := match themes with
              | some t => if ¬ t.isEmpty then some (parseThemes t) else none
              | none => none }

/-- add_item_command: current_data[key] = data; save_data. The stored value
is the freshly built record, whatever was there before. -/
def addItemCommand (d : Collection) (titre url : Str)
    (image : Option Str) (themes : Option Str) : Collection :=
  dictSet d (pyLower titre) (mkItemEntry url image themes)

/-! ## Pagination (PaginatedView, lines 127-230) -/

/-- total_pages = (len(self.item_titles) + self.items_per_page - 1) //
self.items_per_page, as computed in create_page_embed and
interaction_check. -/
def totalPages (count per : Nat) : Nat :=
  (count + per - 1) / per

/-- The page window item_titles[start:end] with start = page * per. -/
def pageSlice (titles : List Str) (page per : Nat) : List Str :=
  (titles.drop (page * per)).take per

/-- Joining with newlines, as "\n".join(description). -/
def joinLines : List Str → Str
  | [] => []
  | [x] => x
  | x :: xs => x ++ '\n' :: joinLines xs

/-- get_page_content: the placeholder line when the page window is empty,
otherwise one bullet per title. -/
def getPageContent (titles : List Str) (per page : Nat) : Str :=
  if (pageSlice titles page per).isEmpty then
    chars "Aucun élément trouvé pour cette page."
  else
    joinLines ((pageSlice titles page per).map
      (fun t => chars "• **" ++ pyTitle t ++ chars "**"))

/-- A prev_page or next_page button press. -/
inductive PageTok where
  | prev
  | next
deriving DecidableEq

/-- The page transition interaction_check applies to self.current_page:
max(0, page - 1) for prev_page, min(total_pages - 1, page + 1) for
next_page. Pages are Python ints, hence Int. -/
def pageStep (total page : Int) : PageTok → Int
  | .prev => max 0 (page - 1)
  | .next => min (total - 1) (page + 1)

/-- Replaying a list of prev/next presses against one view. -/
def replayPages (total : Int) (toks : List PageTok) (page : Int) : Int :=
  toks.foldl (fun p tok => pageStep total p tok) page

/-! ## Interaction dispatch (PaginatedView.interaction_check, lines 198-230) -/

/-- The custom_id prefix of a selection button:
view_item_\x7bdata_file_category\x7d_. -/
def viewItemId (category : Str) : Str :=
  chars "view_item_" ++ category ++ chars "_"

/-- What one interaction_check call does, seen from the outside. -/
inductive CheckOutcome where
  | blockedNonComponent
  | pageRerender (newPage : Int)
  | detailsShown (title : Str)
  | notFoundMsg
  | passThrough
  | attributeError
deriving DecidableEq

/-- interaction_check: non-component interactions return False at once;
custom_id is read with data.get("custom_id") and may be missing; the two
string equality tests against "prev_page"/"next_page" are False for a
missing id; the subsequent custom_id.startswith call on a missing id is the
Python expression None.startswith(...), which raises AttributeError; a
selection id is stripped of the prefix with str.replace and looked up in a
fresh load of the category, answering either the details view or the
generic introuvable message; any other id falls through to return True. -/
def interactionCheck (isComponent : Bool) (customId : Option Str)
    (titles : List Str) (per : Nat) (page : Int) (category : Str)
    (store : Collection) : CheckOutcome × Int :=
  if ¬ isComponent then (.blockedNonComponent, page)
  else if customId = some (chars "prev_page") then
    (.pageRerender (max 0 (page - 1)), max 0 (page - 1))
  else if customId = some (chars "next_page") then
    (.pageRerender (min ((totalPages titles.length per : Int) - 1) (page + 1)),
     min ((totalPages titles.length per : Int) - 1) (page + 1))
  else
    match customId with
    | none => (.attributeError, page)
    | some cid =>
        if pyStartsWith (viewItemId category) cid then
          if dictContains store (pyReplaceDel (viewItemId category) cid) then
            (.detailsShown (pyReplaceDel (viewItemId category) cid), page)
          else
            (.notFoundMsg, page)
        else
          (.passThrough, page)

/-! ## Season deletion (delserieseason, lines 868-892) -/

/-- Possible outcomes of delserieseason; the two success constructors carry
the collection that save_data writes. -/
inductive DelSeasonOutcome where
  | serieNotFound
  | seasonNotFound
  | removedSeries (newData : Collection)
  | removedSeason (newData : Collection)
deriving DecidableEq

/-- delserieseason: look the series up under the lower-cased title, filter
out every season whose number equals the argument; an unchanged length
means the season was absent (nothing is saved); an emptied list pops the
whole series; otherwise the filtered list is stored back. -/
def delserieseason (d : Collection) (titre : Str) (seasonNumber : Int) : DelSeasonOutcome :=
  match dictGet d (pyLower titre) with
  | none => .serieNotFound
  | some e =>
      if ((e.seasons.getD []).filter (fun s => ¬ (s.number = seasonNumber))).length =
          (e.seasons.getD []).length then
        .seasonNotFound
      else if ((e.seasons.getD []).filter (fun s => ¬ (s.number = seasonNumber))).isEmpty then
        .removedSeries (dictPop d (pyLower titre))
      else
        .removedSeason (dictSet d (pyLower titre)
          { e with
            seasons := some ((e.seasons.getD []).filter (fun s => ¬ (s.number = seasonNumber))) })

/-! ## Bulk import (importseries, lines 915-1017) -/

/-- The generated season title: "Saison " followed by the number. -/
def saisonTitle (n : Nat) : Str := chars "Saison " ++ natDigits n

/-- Parsing of one entry of saisons_data inside the import loop: require a
colon, split once on it, strip/upper the left part and delete its S to get
the digits of the season number, require an http(s) url on the right;
none models a continue after appending to the errors list. -/
def parseSeasonEntry (entry : Str) : Option (Nat × Str) :=
  if ¬ pyContainsChar ':' entry then none
  else
    if ¬ pyIsDigit ((pyUpper (pyStrip (entry.takeWhile (fun c => ¬ (c = ':'))))).filter
        (fun c => ¬ (c = 'S'))) then none
    else
      if ¬ pyStartsWith (chars "http://")
            (pyStrip (entry.drop ((entry.takeWhile (fun c => ¬ (c = ':'))).length + 1))) ∧
         ¬ pyStartsWith (chars "https://")
            (pyStrip (entry.drop ((entry.takeWhile (fun c => ¬ (c = ':'))).length + 1))) then
        none
      else
        some
          (charsToNat ((pyUpper (pyStrip (entry.takeWhile (fun c => ¬ (c = ':'))))).filter
            (fun c => ¬ (c = 'S'))),
           pyStrip (entry.drop ((entry.takeWhile (fun c => ¬ (c = ':'))).length + 1)))

/-- Update the first season with the given number in place (the import loop
breaks after the first hit); none if no season has that number. -/
def updateFirstSeason (num : Int) (newTitle newUrl : Str) : List Season → Option (List Season)
  | [] => none
  | s :: rest =>
      if s.number = num then some ({ s with title := newTitle, url := newUrl } :: rest)
      else (updateFirstSeason num newTitle newUrl rest).map (fun r => s :: r)

/-- One iteration of the import loop over (seasons, added, updated). -/
def importStep (acc : List Season × Nat × Nat) (entry : Str) : List Season × Nat × Nat :=
  match parseSeasonEntry entry with
  | none => acc
  | some (n, url) =>
      match updateFirstSeason (n : Int) (saisonTitle n) url acc.1 with
      | some seasons2 => (seasons2, acc.2.1, acc.2.2 + 1)
      | none => (acc.1 ++ [{ number := (n : Int), title := saisonTitle n, url := url }],
                 acc.2.1 + 1, acc.2.2)

/-- Stable insertion placing s after every season with a smaller-or-equal
number. -/
def insertSeason (s : Season) : List Season → List Season
  | [] => [s]
  | t :: rest =>
      if t.number ≤ s.number then t :: insertSeason s rest else s :: t :: rest

/-- seasons.sort(key=lambda s: s.get("number", 0)): a stable sort by season
number (Python's sort is stable; folding stable insertions preserves the
relative order of equal keys). -/
def pySortSeasons (l : List Season) : List Season :=
  l.foldl (fun acc s => insertSeason s acc) []

/-- The record importseries starts from: a fresh \x7bimage, themes, seasons: []\x7d
for a new title, otherwise the stored record with image/themes overwritten
when the arguments are truthy. -/
def importBaseEntry (d : Collection) (key : Str) (image themes : Option Str) : Entry :=
  match dictGet d key with
  | none =>
      { image := image
        themes := some (match themes with
                        | some t => if ¬ t.isEmpty then parseThemes t else []
                        | none => [])
        seasons := some [] }
  | some e =>
      { e with
        image := match image with
                 | some i => if ¬ i.isEmpty then some i else e.image
                 | none => e.image
        themes := match themes with
                  | some t => if ¬ t.isEmpty then some (parseThemes t) else e.themes
                  | none => e.themes }

/-- importseries: build the base record, run the import loop over the
comma-separated, stripped entries of saisons_data, sort the seasons by
number, store the record under the lower-cased title and save. The
collection is saved whatever the per-entry errors were. -/
def importseries (d : Collection) (titre saisonsData : Str)
    (image themes : Option Str) : Collection :=
  dictSet d (pyLower titre)
    { importBaseEntry d (pyLower titre) image themes with
      seasons := some (pySortSeasons
        (((pySplitOn ',' saisonsData).map pyStrip).foldl importStep
          ((importBaseEntry d (pyLower titre) image themes).seasons.getD [], 0, 0)).1) }

/-! ## Channel reconciliation (update_voice_channel_names_for_guild,
lines 1020-1054)

For each category the pass loads the collection, takes its size, scans the
guild's voice channels for the first one whose name matches the tolerant
pattern base(\s*:\s*digits)? case-insensitively, renames it to
"base : count" when it differs, leaves it alone when it already reads so,
and creates a channel named "base : count" when none matches. -/

/-- Case-insensitive literal prefix stripping: some rest when the name
starts with the base (compared through toLower), none otherwise. -/
def stripPrefixCI : Str → Str → Option Str
  | [], name => some name
  | _ :: _, [] => none
  | b :: bs, c :: cs =>
      if b.toLower = c.toLower then stripPrefixCI bs cs else none

/-- The tail of the tolerant pattern after the base name: \s*:\s*\d+$
(whitespace, a colon, whitespace, then only digits to the end). -/
def restMatches (r : Str) : Bool :=
  match r.dropWhile Char.isWhitespace with
  | [] => false
  | c :: r2 =>
      if c = ':' then
        let r3 := r2.dropWhile Char.isWhitespace
        !r3.isEmpty && r3.all Char.isDigit
      else false

/-- re.match of the tolerant pattern
^base\s*:\s*\d+$|^base$ with re.IGNORECASE against a channel name. -/
def matchesPattern (base name : Str) : Bool :=
  match stripPrefixCI base name with
  | none => false
  | some rest => rest.isEmpty || restMatches rest

/-- The desired label f"\x7bchannel_base_name\x7d : \x7bcount\x7d". -/
def newChannelName (base : Str) (count : Nat) : Str :=
  base ++ chars " : " ++ natDigits count

/-- What one category's scan did to the guild: the resulting channel-name
list and how many edit and create calls were issued. -/
structure ReconResult where
  channels : List Str
  renames : Nat
  creates : Nat
deriving DecidableEq

/-- One category of the reconciliation pass over the ordered channel list:
the first matching channel is renamed when its name differs from the
desired label and kept when it already carries it; when no channel matches,
one is created (appended) with the desired label. -/
def reconcileCategory (base : Str) (count : Nat) : List Str → ReconResult
  | [] => { channels := [newChannelName base count], renames := 0, creates := 1 }
  | ch :: rest =>
      if matchesPattern base ch then
        if ch = newChannelName base count then
          { channels := ch :: rest, renames := 0, creates := 0 }
        else
          { channels := newChannelName base count :: rest, renames := 1, creates := 0 }
      else
        { channels := ch :: (reconcileCategory base count rest).channels,
          renames := (reconcileCategory base count rest).renames,
          creates := (reconcileCategory base count rest).creates }

/-- update_voice_channel_names_for_guild: the four categories of
VOICE_CHANNEL_MAP in insertion order, each with the size of its freshly
loaded collection, threaded over the guild's channel list. -/
def updateVoiceChannelNames (cf cs cj cl : Nat) (channels : List Str) : ReconResult :=
  { channels :=
      (reconcileCategory (chars "Logiciels disponibles") cl
        (reconcileCategory (chars "Jeux disponibles") cj
          (reconcileCategory (chars "Series disponibles") cs
            (reconcileCategory (chars "Films disponibles") cf channels).channels).channels).channels).channels
    renames :=
      (reconcileCategory (chars "Films disponibles") cf channels).renames +
      (reconcileCategory (chars "Series disponibles") cs
        (reconcileCategory (chars "Films disponibles") cf channels).channels).renames +
      (reconcileCategory (chars "Jeux disponibles") cj
        (reconcileCategory (chars "Series disponibles") cs
          (reconcileCategory (chars "Films disponibles") cf channels).channels).channels).renames +
      (reconcileCategory (chars "Logiciels disponibles") cl
        (reconcileCategory (chars "Jeux disponibles") cj
          (reconcileCategory (chars "Series disponibles") cs
            (reconcileCategory (chars "Films disponibles") cf channels).channels).channels).channels).renames
    creates :=
      (reconcileCategory (chars "Films disponibles") cf channels).creates +
      (reconcileCategory (chars "Series disponibles") cs
        (reconcileCategory (chars "Films disponibles") cf channels).channels).creates +
      (reconcileCategory (chars "Jeux disponibles") cj
        (reconcileCategory (chars "Series disponibles") cs
          (reconcileCategory (chars "Films disponibles") cf channels).channels).channels).creates +
      (reconcileCategory (chars "Logiciels disponibles") cl
        (reconcileCategory (chars "Jeux disponibles") cj
          (reconcileCategory (chars "Series disponibles") cs
            (reconcileCategory (chars "Films disponibles") cf channels).channels).channels).channels).creates }

end NetflipsBot

namespace NetflipsBot

/-- Helper: a key absent from the list is found at the end after appending. -/
theorem dictGet_append_absent (d : Collection) (k : Str) (v : Entry)
    (h : dictContains d k = false) : dictGet (d ++ [(k, v)]) k = some v := by
  induction d with
  | nil => simp [dictGet, List.find?]
  | cons p t ih =>
      simp only [dictContains, List.any_cons, Bool.or_eq_false_iff] at h
      simp only [dictGet, List.cons_append, List.find?]
      rw [decide_eq_false (by simpa using h.1)]
      exact ih h.2

/-- Helper: replacing the binding of a present key makes lookup return the
new value. -/
theorem dictGet_replace_present (d : Collection) (k : Str) (v : Entry)
    (h : dictContains d k = true) :
    dictGet (d.map (fun p => if p.1 = k then (k, v) else p)) k = some v := by
  induction d with
  | nil => simp [dictContains] at h
  | cons p t ih =>
      by_cases hp : p.1 = k
      · simp [dictGet, List.find?, hp]
      · simp only [dictContains, List.any_cons, Bool.or_eq_true] at h
        rcases h with h | h
        · exact absurd (by simpa using h) hp
        · simp only [List.map_cons, if_neg hp, dictGet, List.find?]
          rw [decide_eq_false (by simpa using hp)]
          exact ih h

/-- Helper: dict assignment followed by lookup of the same key yields the
assigned value. -/
theorem dictGet_dictSet (d : Collection) (k : Str) (v : Entry) :
    dictGet (dictSet d k v) k = some v := by
  unfold dictSet
  by_cases h : dictContains d k
  · rw [if_pos h]
    exact dictGet_replace_present d k v h
  · rw [if_neg h]
    exact dictGet_append_absent d k v (by simpa using h)

/-- Helper: membership agrees with lookup success. -/
theorem dictContains_eq_isSome (d : Collection) (k : Str) :
    dictContains d k = (dictGet d k).isSome := by
  induction d with
  | nil => simp [dictContains, dictGet]
  | cons p t ih =>
      by_cases hp : p.1 = k
      · simp [dictContains, dictGet, List.find?, hp]
      · simp only [dictContains, List.any_cons, dictGet, List.find?]
        rw [decide_eq_false (by simpa using hp)]
        simpa [dictContains, dictGet, hp] using ih

/-- Helper: a popped key is no longer a member. -/
theorem dictContains_dictPop (d : Collection) (k : Str) :
    dictContains (dictPop d k) k = false := by
  induction d with
  | nil => simp [dictContains, dictPop]
  | cons p t ih =>
      by_cases hp : p.1 = k
      · simpa [dictPop, List.filter, hp] using ih
      · simp only [dictPop, List.filter, decide_eq_false hp, Bool.not_false] at ih ⊢
        simp [dictContains, hp]


/-- Helper: the migration is idempotent on a single record. -/
theorem migrateEntry_idem (e : Entry) : migrateEntry (migrateEntry e) = migrateEntry e := by
  unfold migrateEntry
  cases hu : e.url <;> cases hs : e.seasons <;> simp [hu, hs]

/-- C1 (counterexample): the claim asserts the migrated record carries a
season titled "Season 1"; the source writes the French title "Saison 1",
so on the legacy record \x7burl: "X"\x7d the migrated output differs from the
record the claim states. -/
theorem c1_migration_counterexample :
    loadMigrate [(chars "x", { url := some (chars "X") })] ≠
      [(chars "x",
        { seasons := some [{ number := 1, title := chars "Season 1", url := chars "X" }] })] := by
  decide

/-- C1 (amended): a legacy series record \x7burl: "X"\x7d (url present, no
seasons) is rewritten to \x7bseasons: [\x7bnumber: 1, title: "Saison 1",
url: "X"\x7d]\x7d with the url key removed, and the migration pass is
idempotent: migrating already-migrated data is a no-op. -/
theorem c1_migration_amended :
    (∀ (e : Entry) (u : Str), e.url = some u → e.seasons = none →
      migrateEntry e =
        { e with seasons := some [{ number := 1, title := chars "Saison 1", url := u }],
                 url := none }) ∧
    (∀ d : Collection, loadMigrate (loadMigrate d) = loadMigrate d) := by
  constructor
  · intro e u hu hs
    unfold migrateEntry
    rw [hu, hs]
  · intro d
    unfold loadMigrate
    rw [List.map_map]
    apply List.map_congr_left
    intro p _
    simp [migrateEntry_idem]

/-- C1 (witness): the amended theorem applied to the concrete legacy record
\x7burl: "X"\x7d. -/
theorem c1_migration_amended_witness :
    migrateEntry { url := some (chars "X") } =
      { url := none,
        seasons := some [{ number := 1, title := chars "Saison 1", url := chars "X" }] } ∧
    loadMigrate (loadMigrate [(chars "x", { url := some (chars "X") })]) =
      loadMigrate [(chars "x", { url := some (chars "X") })] := by
  refine ⟨?_, c1_migration_amended.2 _⟩
  have h := c1_migration_amended.1 { url := some (chars "X") } (chars "X") rfl rfl
  simpa using h

/-- C2: after every successful on_submit, the refreshed entry's ratings
list is non-empty, its stored rating equals round(mean(ratings), 2) over
that list, and the saved collection holds exactly that entry under the
key; entries created by add_item_command start with no rating and no
ratings key. -/
theorem c2_rating_mean_invariant :
    (∀ (d : Collection) (title : Str) (note : Int) (d' : Collection) (e' : Entry),
        ratingSubmit d title note = .rated d' e' →
        ∃ rs : List Int, e'.ratings = some rs ∧ rs ≠ [] ∧
          e'.rating = some (round2 (meanQ rs)) ∧
          dictGet d' (pyLower title) = some e') ∧
    (∀ (url : Str) (image : Option Str) (themes : Option Str),
        (mkItemEntry url image themes).rating = none ∧
        (mkItemEntry url image themes).ratings = none) := by
  constructor
  · intro d title note d' e' h
    unfold ratingSubmit at h
    by_cases hr : 1 ≤ note ∧ note ≤ 5
    · rw [if_neg (not_not_intro hr)] at h
      cases hd : dictGet d (pyLower title) with
      | none =>
          rw [hd] at h
          exact absurd h (by simp)
      | some e =>
          rw [hd] at h
          rw [RatingOutcome.rated.injEq] at h
          refine ⟨e.ratings.getD [] ++ [note], ?_, by simp, ?_, ?_⟩
          · rw [← h.2]
          · rw [← h.2]
          · rw [← h.1, ← h.2]
            exact dictGet_dictSet d (pyLower title) _
    · rw [if_pos hr] at h
      exact absurd h (by simp)
  · intro url image themes
    constructor <;> simp [mkItemEntry]

/-- C2 (witness): rating the concrete entry "dune" with a 4 on a singleton
store; the success outcome is computed and the invariant read off the
theorem. -/
theorem c2_rating_mean_invariant_witness :
    ∃ rs : List Int,
      (Entry.mk (some (chars "u")) none none (some (round2 (meanQ [4]))) (some [4]) none).ratings =
        some rs ∧
      rs ≠ [] ∧
      (Entry.mk (some (chars "u")) none none (some (round2 (meanQ [4]))) (some [4]) none).rating =
        some (round2 (meanQ rs)) ∧
      dictGet
        [(chars "dune",
          Entry.mk (some (chars "u")) none none (some (round2 (meanQ [4]))) (some [4]) none)]
        (pyLower (chars "dune")) =
        some (Entry.mk (some (chars "u")) none none (some (round2 (meanQ [4]))) (some [4]) none) :=
  c2_rating_mean_invariant.1 [(chars "dune", { url := some (chars "u") })] (chars "dune") 4
    [(chars "dune",
      Entry.mk (some (chars "u")) none none (some (round2 (meanQ [4]))) (some [4]) none)]
    (Entry.mk (some (chars "u")) none none (some (round2 (meanQ [4]))) (some [4]) none)
    rfl

/-- C3 (counterexample): totalPages has no minimum of 1; with no items and
page size 10 the footer arithmetic yields 0 pages, not the 1 page the claim
asserts. -/
theorem c3_total_pages_counterexample : totalPages 0 10 ≠ 1 := by
  decide

/-- C3 (amended): totalPages is exactly the ceiling of count / n (so 0 when
count is 0, without any minimum of 1): its value t is characterised by
count ≤ t * n < count + n; in particular totalPages 0 10 = 0 and
totalPages 25 10 = 3; an empty page window is still rendered with the
explanatory placeholder line. -/
theorem c3_total_pages_amended :
    (∀ count n : Nat, 0 < n →
        count ≤ totalPages count n * n ∧ totalPages count n * n < count + n) ∧
    totalPages 0 10 = 0 ∧ totalPages 25 10 = 3 ∧
    (∀ per page : Nat,
        getPageContent [] per page = chars "Aucun élément trouvé pour cette page.") := by
  refine ⟨?_, by decide, by decide, ?_⟩
  · intro count n hn
    have h1 := Nat.div_add_mod (count + n - 1) n
    have h2 := Nat.mod_lt (count + n - 1) hn
    unfold totalPages
    constructor
    · rw [mul_comm]
      omega
    · rw [mul_comm]
      omega
  · intro per page
    simp [getPageContent, pageSlice]

/-- C3 (witness): the amended theorem at count 25, page size 10, and the
placeholder on the empty collection at page 0. -/
theorem c3_total_pages_amended_witness :
    (25 ≤ totalPages 25 10 * 10 ∧ totalPages 25 10 * 10 < 25 + 10) ∧
    getPageContent [] 10 0 = chars "Aucun élément trouvé pour cette page." :=
  ⟨c3_total_pages_amended.1 25 10 (by decide), c3_total_pages_amended.2.2.2 10 0⟩

/-- Helper: a non-empty collection paginates to at least one page. -/
theorem one_le_totalPages (len per : Nat) (hl : 0 < len) (hp : 0 < per) :
    1 ≤ totalPages len per := by
  unfold totalPages
  rw [Nat.le_div_iff_mul_le hp]
  omega

/-- Helper: the page invariant 0 ≤ page ≤ total - 1 is preserved by any
replay of prev/next presses. -/
theorem replayPages_bounds (T : Int) (toks : List PageTok) :
    ∀ p : Int, 0 ≤ p → p ≤ T - 1 →
      0 ≤ replayPages T toks p ∧ replayPages T toks p ≤ T - 1 := by
  induction toks with
  | nil =>
      intro p h1 h2
      exact ⟨h1, h2⟩
  | cons tok rest ih =>
      intro p h1 h2
      have hstep : 0 ≤ pageStep T p tok ∧ pageStep T p tok ≤ T - 1 := by
        cases tok <;> simp [pageStep] <;> omega
      simpa [replayPages, List.foldl] using ih (pageStep T p tok) hstep.1 hstep.2

/-- C5: for a view over a non-empty item list (the only kind the program
constructs: both construction sites guard against empty collections),
replaying any sequence of prev/next presses from the initial page 0 keeps
current_page inside [0, totalPages - 1], and a press on a boundary is a
no-op: prev on page 0 stays 0, next on the last page stays there. -/
theorem c5_page_navigation_clamped :
    ∀ (titles : List Str) (per : Nat), titles ≠ [] → 0 < per →
      ∀ toks : List PageTok,
        0 ≤ replayPages (totalPages titles.length per : Int) toks 0 ∧
        replayPages (totalPages titles.length per : Int) toks 0 ≤
          (totalPages titles.length per : Int) - 1 ∧
        pageStep (totalPages titles.length per : Int) 0 .prev = 0 ∧
        pageStep (totalPages titles.length per : Int)
            ((totalPages titles.length per : Int) - 1) .next =
          (totalPages titles.length per : Int) - 1 := by
  intro titles per htitles hper toks
  have hlen : 0 < titles.length := List.length_pos.mpr htitles
  have hT : (1 : Int) ≤ (totalPages titles.length per : Int) := by
    exact_mod_cast one_le_totalPages titles.length per hlen hper
  have hb := replayPages_bounds (totalPages titles.length per : Int) toks 0 le_rfl (by omega)
  refine ⟨hb.1, hb.2, ?_, ?_⟩
  · simp [pageStep]
  · simp [pageStep]

/-- C5 (witness): a singleton view with page size 10, replaying
next, next, prev. -/
theorem c5_page_navigation_clamped_witness :
    0 ≤ replayPages (totalPages [chars "a"].length 10 : Int) [.next, .next, .prev] 0 ∧
    replayPages (totalPages [chars "a"].length 10 : Int) [.next, .next, .prev] 0 ≤
      (totalPages [chars "a"].length 10 : Int) - 1 ∧
    pageStep (totalPages [chars "a"].length 10 : Int) 0 .prev = 0 ∧
    pageStep (totalPages [chars "a"].length 10 : Int)
        ((totalPages [chars "a"].length 10 : Int) - 1) .next =
      (totalPages [chars "a"].length 10 : Int) - 1 :=
  c5_page_navigation_clamped [chars "a"] 10 (by decide) (by decide) [.next, .next, .prev]

/-- C4 (counterexample): the claim says an existing entry's ratings survive
an add command that omits them; re-adding "Dune" over a store where it has
ratings [5] leaves the stored entry with no ratings key at all. -/
theorem c4_add_merge_counterexample :
    ¬ ((dictGet (addItemCommand
          [(chars "dune", { url := some (chars "u0"), themes := some [chars "scifi"],
                            ratings := some [5] })]
          (chars "Dune") (chars "u1") none none) (chars "dune")).map Entry.ratings =
        some (some [5])) := by
  decide

/-- C4 (amended): an add command targeting an existing key has replace
semantics, not merge semantics: the stored entry afterwards is exactly the
record built from the command's own arguments, so ratings, rating and
themes omitted from the command are dropped rather than preserved. -/
theorem c4_add_replace_amended :
    ∀ (d : Collection) (titre url : Str) (image : Option Str) (themes : Option Str),
      dictGet (addItemCommand d titre url image themes) (pyLower titre) =
        some (mkItemEntry url image themes) ∧
      (mkItemEntry url image themes).ratings = none ∧
      (mkItemEntry url image themes).rating = none := by
  intro d titre url image themes
  exact ⟨dictGet_dictSet d (pyLower titre) _, by simp [mkItemEntry], by simp [mkItemEntry]⟩

/-- C6: an integer note outside 1..5 makes on_submit answer with the
out-of-range message, and the persisted collection is left unchanged:
nothing is appended, recomputed or saved. -/
theorem c6_rating_out_of_range_rejected :
    ∀ (d : Collection) (title : Str) (note : Int),
      note < 1 ∨ 5 < note →
      ratingSubmit d title note = .outOfRange ∧ ratingPersisted d title note = d := by
  intro d title note h
  have hcond : ¬ (1 ≤ note ∧ note ≤ 5) := by omega
  constructor
  · unfold ratingSubmit
    rw [if_pos hcond]
  · unfold ratingPersisted ratingSubmit
    rw [if_pos hcond]

/-- Helper: removing a number that occurs among the seasons strictly
shrinks the list. -/
theorem filter_ne_length_lt (seasons : List Season) (num : Int)
    (h : num ∈ seasons.map Season.number) :
    (seasons.filter (fun s => ¬ (s.number = num))).length < seasons.length := by
  induction seasons with
  | nil => simp at h
  | cons s t ih =>
      by_cases hs : s.number = num
      · have hle := List.length_filter_le (fun s => decide ¬ (s.number = num)) t
        have hcond : (decide ¬ (s.number = num)) = false := by simp [hs]
        simp only [List.filter_cons, hcond, if_false]
        simpa using Nat.lt_succ_of_le hle
      · have h' : num ∈ t.map Season.number := by
          rcases List.mem_cons.mp h with h | h
          · exact absurd h.symm hs
          · exact h
        have hcond : (decide ¬ (s.number = num)) = true := by simp [hs]
        simp only [List.filter_cons, hcond, if_true]
        simpa using Nat.succ_lt_succ (ih h')

/-- Helper: under a present series and a present season number,
delserieseason reaches one of its two save branches, selected by whether
the filtered season list is empty. -/
theorem delserieseason_eval (d : Collection) (titre : Str) (num : Int) (e : Entry)
    (seasons : List Season) (hget : dictGet d (pyLower titre) = some e)
    (hse : e.seasons = some seasons) (hmem : num ∈ seasons.map Season.number) :
    delserieseason d titre num =
      if (seasons.filter (fun s => ¬ (s.number = num))).isEmpty then
        .removedSeries (dictPop d (pyLower titre))
      else
        .removedSeason (dictSet d (pyLower titre)
          { e with seasons := some (seasons.filter (fun s => ¬ (s.number = num))) }) := by
  have hlt := filter_ne_length_lt seasons num hmem
  simp only [delserieseason, hget, hse, Option.getD_some]
  rw [if_neg (Nat.ne_of_lt hlt)]

/-- C7: when the requested season number is present, delserieseason either
removes the whole series (when no season is left: the stored key is gone
afterwards, in particular for a series without image or themes as the claim
conditions) or stores the series back with exactly the remaining seasons,
which stay sorted ascending by number whenever the stored list was. -/
theorem c7_delserieseason_behavior :
    ∀ (d : Collection) (titre : Str) (num : Int) (e : Entry) (seasons : List Season),
      dictGet d (pyLower titre) = some e →
      e.seasons = some seasons →
      num ∈ seasons.map Season.number →
      ((seasons.filter (fun s => ¬ (s.number = num))) = [] → e.image = none → e.themes = none →
        delserieseason d titre num = .removedSeries (dictPop d (pyLower titre)) ∧
        dictContains (dictPop d (pyLower titre)) (pyLower titre) = false) ∧
      ((seasons.filter (fun s => ¬ (s.number = num))) ≠ [] →
        delserieseason d titre num =
          .removedSeason (dictSet d (pyLower titre)
            { e with seasons := some (seasons.filter (fun s => ¬ (s.number = num))) }) ∧
        dictGet (dictSet d (pyLower titre)
            { e with seasons := some (seasons.filter (fun s => ¬ (s.number = num))) })
          (pyLower titre) =
          some { e with seasons := some (seasons.filter (fun s => ¬ (s.number = num))) } ∧
        (seasons.Pairwise (fun a b => a.number ≤ b.number) →
          (seasons.filter (fun s => ¬ (s.number = num))).Pairwise
            (fun a b => a.number ≤ b.number))) := by
  intro d titre num e seasons hget hse hmem
  constructor
  · intro hempty _ _
    refine ⟨?_, dictContains_dictPop d (pyLower titre)⟩
    rw [delserieseason_eval d titre num e seasons hget hse hmem,
      if_pos (by rw [List.isEmpty_iff]; exact hempty)]
  · intro hne
    refine ⟨?_, dictGet_dictSet d (pyLower titre) _,
      fun hsorted => hsorted.sublist (List.filter_sublist _)⟩
    rw [delserieseason_eval d titre num e seasons hget hse hmem,
      if_neg (by rw [List.isEmpty_iff]; exact hne)]

/-- C7 (witness): deleting season 1 of a concrete two-season series keeps
the series with only season 2, still sorted. -/
theorem c7_delserieseason_behavior_witness :
    delserieseason
        [(chars "foo",
          { seasons := some [{ number := 1, title := chars "Saison 1", url := chars "u1" },
                             { number := 2, title := chars "Saison 2", url := chars "u2" }] })]
        (chars "foo") 1 =
      .removedSeason (dictSet
        [(chars "foo",
          { seasons := some [{ number := 1, title := chars "Saison 1", url := chars "u1" },
                             { number := 2, title := chars "Saison 2", url := chars "u2" }] })]
        (pyLower (chars "foo"))
        { seasons := some ([{ number := 1, title := chars "Saison 1", url := chars "u1" },
                            { number := 2, title := chars "Saison 2", url := chars "u2" }].filter
            (fun s => ¬ (s.number = 1))) }) ∧
    ([{ number := 1, title := chars "Saison 1", url := chars "u1" },
      { number := 2, title := chars "Saison 2", url := chars "u2" }].filter
        (fun s => ¬ (s.number = (1 : Int)))).Pairwise
      (fun a b : Season => a.number ≤ b.number) := by
  have h := (c7_delserieseason_behavior
    [(chars "foo",
      { seasons := some [{ number := 1, title := chars "Saison 1", url := chars "u1" },
                         { number := 2, title := chars "Saison 2", url := chars "u2" }] })]
    (chars "foo") 1
    { seasons := some [{ number := 1, title := chars "Saison 1", url := chars "u1" },
                       { number := 2, title := chars "Saison 2", url := chars "u2" }] }
    [{ number := 1, title := chars "Saison 1", url := chars "u1" },
     { number := 2, title := chars "Saison 2", url := chars "u2" }]
    (by decide) rfl (by decide)).2 (by decide)
  exact ⟨h.1, h.2.2 (by decide)⟩

/-- C9 (counterexample): a component interaction whose payload carries no
custom_id is not answered with the generic not-found response: the code
reaches None.startswith and raises AttributeError, an unhandled fault. -/
theorem c9_dispatch_counterexample :
    (interactionCheck true none [chars "a"] 10 0 (chars "films") []).1 =
      CheckOutcome.attributeError ∧
    CheckOutcome.attributeError ≠ CheckOutcome.notFoundMsg := by
  exact ⟨by decide, by decide⟩

/-- C9 (amended): a token with a missing custom_id raises AttributeError
(None.startswith) instead of being rejected; a decodable custom_id that
matches none of prev_page, next_page, or this view's selection prefix is
passed through (interaction_check returns True) with no not-found response;
only a selection token of this view's category whose target is absent from
the freshly loaded collection is answered with the generic not-found
message. -/
theorem c9_dispatch_amended :
    (∀ (titles : List Str) (per : Nat) (page : Int) (category : Str) (store : Collection),
        (interactionCheck true none titles per page category store).1 =
          CheckOutcome.attributeError) ∧
    (∀ (cid : Str) (titles : List Str) (per : Nat) (page : Int) (category : Str)
        (store : Collection),
        cid ≠ chars "prev_page" → cid ≠ chars "next_page" →
        pyStartsWith (viewItemId category) cid = false →
        (interactionCheck true (some cid) titles per page category store).1 =
          CheckOutcome.passThrough) ∧
    (∀ (cid : Str) (titles : List Str) (per : Nat) (page : Int) (category : Str)
        (store : Collection),
        cid ≠ chars "prev_page" → cid ≠ chars "next_page" →
        pyStartsWith (viewItemId category) cid = true →
        dictContains store (pyReplaceDel (viewItemId category) cid) = false →
        (interactionCheck true (some cid) titles per page category store).1 =
          CheckOutcome.notFoundMsg) := by
  refine ⟨?_, ?_, ?_⟩
  · intro titles per page category store
    simp [interactionCheck]
  · intro cid titles per page category store h1 h2 h3
    simp [interactionCheck, h1, h2, h3]
  · intro cid titles per page category store h1 h2 h3 h4
    simp [interactionCheck, h1, h2, h3, h4]

/-- C9 (witness): the three amended behaviours at concrete tokens: a
missing custom_id, the unknown id "xyz", and a selection id for the absent
target "zzz". -/
theorem c9_dispatch_amended_witness :
    (interactionCheck true none [chars "a"] 10 0 (chars "films") []).1 =
      CheckOutcome.attributeError ∧
    (interactionCheck true (some (chars "xyz")) [chars "a"] 10 0 (chars "films") []).1 =
      CheckOutcome.passThrough ∧
    (interactionCheck true (some (chars "view_item_films_zzz")) [chars "a"] 10 0
        (chars "films") []).1 =
      CheckOutcome.notFoundMsg := by
  refine ⟨c9_dispatch_amended.1 [chars "a"] 10 0 (chars "films") [], ?_, ?_⟩
  · exact c9_dispatch_amended.2.1 (chars "xyz") [chars "a"] 10 0 (chars "films") []
      (by decide) (by decide) (by decide)
  · exact c9_dispatch_amended.2.2 (chars "view_item_films_zzz") [chars "a"] 10 0
      (chars "films") [] (by decide) (by decide) (by decide) (by decide)

/-- Helper: when every entry of the import loop fails its parsing or URL
validation, the fold leaves the accumulator untouched. -/
theorem importStep_all_errors (entries : List Str) :
    ∀ acc, (∀ e ∈ entries, parseSeasonEntry e = none) →
      entries.foldl importStep acc = acc := by
  induction entries with
  | nil => intro acc _; rfl
  | cons x xs ih =>
      intro acc h
      have hx : parseSeasonEntry x = none := h x (by simp)
      simp only [List.foldl_cons]
      rw [show importStep acc x = acc from by simp [importStep, hx]]
      exact ih acc (fun e he => h e (by simp [he]))

/-- C10: importseries on a title absent from the series collection creates
and saves the entry regardless of season validation: even when every
element of saisons_data fails parsing or URL validation, the saved
collection contains the series with an empty seasons list. -/
theorem c10_importseries_creates_on_errors :
    ∀ (d : Collection) (titre saisonsData : Str) (image themes : Option Str),
      dictContains d (pyLower titre) = false →
      (∀ e ∈ (pySplitOn ',' saisonsData).map pyStrip, parseSeasonEntry e = none) →
      dictContains (importseries d titre saisonsData image themes) (pyLower titre) = true ∧
      (dictGet (importseries d titre saisonsData image themes) (pyLower titre)).map
        Entry.seasons = some (some []) := by
  intro d titre sd image themes hno hall
  have hget0 : dictGet d (pyLower titre) = none := by
    have hiso := dictContains_eq_isSome d (pyLower titre)
    rw [hno] at hiso
    cases h : dictGet d (pyLower titre) with
    | none => rfl
    | some e => rw [h] at hiso; simp at hiso
  have hbase : (importBaseEntry d (pyLower titre) image themes).seasons = some [] := by
    simp [importBaseEntry, hget0]
  have hfold := importStep_all_errors ((pySplitOn ',' sd).map pyStrip)
    ((importBaseEntry d (pyLower titre) image themes).seasons.getD [], 0, 0) hall
  have hgetset := dictGet_dictSet d (pyLower titre)
    { importBaseEntry d (pyLower titre) image themes with
      seasons := some (pySortSeasons
        ((((pySplitOn ',' sd).map pyStrip).foldl importStep
          ((importBaseEntry d (pyLower titre) image themes).seasons.getD [], 0, 0)).1)) }
  constructor
  · rw [dictContains_eq_isSome]
    unfold importseries
    rw [hgetset]
    rfl
  · unfold importseries
    rw [hgetset]
    simp only [hbase, Option.getD_some] at hfold ⊢
    rw [hfold]
    rfl

/-- C10 (witness): importing "bar,S1:ftp://x" (a malformed entry and an
entry with a non-http url) for the new series "Foo" over an empty store
still creates and saves the series, with zero seasons. -/
theorem c10_importseries_creates_on_errors_witness :
    dictContains (importseries [] (chars "Foo") (chars "bar,S1:ftp://x") none none)
      (pyLower (chars "Foo")) = true ∧
    (dictGet (importseries [] (chars "Foo") (chars "bar,S1:ftp://x") none none)
      (pyLower (chars "Foo"))).map Entry.seasons = some (some []) :=
  c10_importseries_creates_on_errors [] (chars "Foo") (chars "bar,S1:ftp://x") none none
    (by decide) (by decide)

/-- Helper: the decimal rendering of a count is never empty. -/
theorem natDigits_ne_nil (n : Nat) : natDigits n ≠ [] := by
  unfold natDigits natDigitsAux
  by_cases h : n < 10 <;> simp [h]

/-- Helper: a rendered decimal digit is a digit character. -/
theorem ofNat_digit_isDigit (n : Nat) : (Char.ofNat (48 + n % 10)).isDigit = true := by
  have h : n % 10 < 10 := Nat.mod_lt _ (by omega)
  set k := n % 10 with hk
  interval_cases k <;> decide

/-- Helper: every character of a rendered count is a digit. -/
theorem natDigitsAux_all_digit :
    ∀ (fuel n : Nat), ∀ c ∈ natDigitsAux fuel n, c.isDigit = true := by
  intro fuel
  induction fuel with
  | zero => intro n c hc; simp [natDigitsAux] at hc
  | succ f ih =>
      intro n c hc
      unfold natDigitsAux at hc
      by_cases h : n < 10
      · rw [if_pos h] at hc
        rcases List.mem_singleton.mp hc with rfl
        exact ofNat_digit_isDigit n
      · rw [if_neg h] at hc
        rcases List.mem_append.mp hc with hc | hc
        · exact ih (n / 10) c hc
        · rcases List.mem_singleton.mp hc with rfl
          exact ofNat_digit_isDigit n

/-- Helper: every character of str(n) is a digit. -/
theorem natDigits_all_digit (n : Nat) : ∀ c ∈ natDigits n, c.isDigit = true :=
  natDigitsAux_all_digit (n + 1) n

/-- Helper: a digit character is not whitespace. -/
theorem isDigit_not_whitespace (c : Char) (h : c.isDigit = true) :
    c.isWhitespace = false := by
  by_contra hw
  rw [Bool.not_eq_false] at hw
  simp only [Char.isWhitespace, Bool.or_eq_true, decide_eq_true_eq] at hw
  rcases hw with ((h1 | h1) | h1) | h1 <;> (subst h1; exact absurd h (by decide))

/-- Helper: stripping a base off itself followed by anything leaves that
tail. -/
theorem stripPrefixCI_append (b r : Str) : stripPrefixCI b (b ++ r) = some r := by
  induction b with
  | nil => simp [stripPrefixCI]
  | cons x xs ih => simp [stripPrefixCI, ih]

/-- Helper: the pattern test through a successful prefix strip. -/
theorem matchesPattern_of_strip (base name rest : Str)
    (h : stripPrefixCI base name = some rest) :
    matchesPattern base name = (rest.isEmpty || restMatches rest) := by
  unfold matchesPattern
  rw [h]

/-- Helper: the desired label "base : count" matches the tolerant channel
pattern for its own base. -/
theorem matchesPattern_newChannelName (base : Str) (count : Nat) :
    matchesPattern base (newChannelName base count) = true := by
  have hs : stripPrefixCI base (newChannelName base count) =
      some (chars " : " ++ natDigits count) := by
    unfold newChannelName
    rw [List.append_assoc]
    exact stripPrefixCI_append base _
  rw [matchesPattern_of_strip base _ _ hs]
  cases hd : natDigits count with
  | nil => exact absurd hd (natDigits_ne_nil count)
  | cons c cs =>
      have hc : c.isDigit = true :=
        natDigits_all_digit count c (by rw [hd]; exact List.mem_cons_self c cs)
      have hall : (c :: cs).all Char.isDigit = true := by
        rw [List.all_eq_true]
        intro x hx
        exact natDigits_all_digit count x (by rw [hd]; exact hx)
      have hws1 : Char.isWhitespace ' ' = true := by decide
      have hws2 : Char.isWhitespace ':' = false := by decide
      have hwsc : Char.isWhitespace c = false := isDigit_not_whitespace c hc
      have hrw : chars " : " ++ (c :: cs) = ' ' :: ':' :: ' ' :: (c :: cs) := rfl
      rw [hrw]
      simp [restMatches, List.dropWhile_cons, hws1, hws2, hwsc, hall]

/-- Helper: a channel name starting with a different letter (even case
insensitively) does not match the pattern. -/
theorem matchesPattern_cons_ne (b c : Char) (bs cs : Str)
    (h : ¬ (b.toLower = c.toLower)) :
    matchesPattern (b :: bs) (c :: cs) = false := by
  simp [matchesPattern, stripPrefixCI, h]

/-- Helper: another category's desired label never matches this category's
pattern when the two base names differ on their first letter. -/
theorem matchesPattern_newChannelName_ne (b c : Char) (bs os : Str) (n : Nat)
    (h : ¬ (b.toLower = c.toLower)) :
    matchesPattern (b :: bs) (newChannelName (c :: os) n) = false := by
  have hsplit : newChannelName (c :: os) n = c :: (os ++ chars " : " ++ natDigits n) := by
    simp [newChannelName]
  rw [hsplit]
  exact matchesPattern_cons_ne b c bs _ h

/-- Helper: one category's scan is idempotent on its own output. -/
theorem reconcileCategory_fixpoint (base : Str) (count : Nat) (l : List Str) :
    reconcileCategory base count (reconcileCategory base count l).channels =
      { channels := (reconcileCategory base count l).channels,
        renames := 0, creates := 0 } := by
  have hm := matchesPattern_newChannelName base count
  induction l with
  | nil => simp [reconcileCategory, hm]
  | cons ch rest ih =>
      by_cases hc : matchesPattern base ch
      · by_cases he : ch = newChannelName base count
        · simp [reconcileCategory, hc, he, hm]
        · simp [reconcileCategory, hc, he, hm]
      · simp only [reconcileCategory, hc, if_false, Bool.false_eq_true]
        simp [reconcileCategory, hc, ih]

/-- Helper: a category scan that is already a no-op on a channel list stays
a no-op after another category's scan, provided neither category's desired
label matches the other's pattern. -/
theorem reconcileCategory_stable (b b2 : Str) (c c2 : Nat)
    (hx : matchesPattern b (newChannelName b2 c2) = false)
    (hy : matchesPattern b2 (newChannelName b c) = false) :
    ∀ l : List Str,
      reconcileCategory b c l = { channels := l, renames := 0, creates := 0 } →
      reconcileCategory b c (reconcileCategory b2 c2 l).channels =
        { channels := (reconcileCategory b2 c2 l).channels,
          renames := 0, creates := 0 } := by
  intro l
  induction l with
  | nil =>
      intro h
      exfalso
      simp [reconcileCategory] at h
  | cons ch rest ih =>
      intro h
      by_cases hc : matchesPattern b ch
      · have he : ch = newChannelName b c := by
          by_contra hne
          simp [reconcileCategory, hc, hne] at h
        have hb2 : matchesPattern b2 ch = false := by rw [he]; exact hy
        have hch2 : reconcileCategory b2 c2 (ch :: rest) =
            { channels := ch :: (reconcileCategory b2 c2 rest).channels,
              renames := (reconcileCategory b2 c2 rest).renames,
              creates := (reconcileCategory b2 c2 rest).creates } := by
          simp [reconcileCategory, hb2]
        rw [hch2]
        simp [reconcileCategory, hc, he, matchesPattern_newChannelName]
      · have hrest : reconcileCategory b c rest =
            { channels := rest, renames := 0, creates := 0 } := by
          cases hrr : reconcileCategory b c rest with
          | mk chs rn cr =>
              rw [show reconcileCategory b c (ch :: rest) =
                  { channels := ch :: (reconcileCategory b c rest).channels,
                    renames := (reconcileCategory b c rest).renames,
                    creates := (reconcileCategory b c rest).creates } from by
                simp [reconcileCategory, hc], hrr] at h
              simp only [ReconResult.mk.injEq, List.cons.injEq] at h
              simp [h.1.2, h.2.1, h.2.2]
        by_cases hc2 : matchesPattern b2 ch
        · by_cases he2 : ch = newChannelName b2 c2
          · have hch2 : (reconcileCategory b2 c2 (ch :: rest)).channels = ch :: rest := by
              simp [reconcileCategory, hc2, he2, matchesPattern_newChannelName]
            rw [hch2]
            exact h
          · have hch2 : reconcileCategory b2 c2 (ch :: rest) =
                { channels := newChannelName b2 c2 :: rest, renames := 1, creates := 0 } := by
              simp [reconcileCategory, hc2, he2]
            rw [hch2]
            simp [reconcileCategory, hx, hrest]
        · have hch2 : reconcileCategory b2 c2 (ch :: rest) =
              { channels := ch :: (reconcileCategory b2 c2 rest).channels,
                renames := (reconcileCategory b2 c2 rest).renames,
                creates := (reconcileCategory b2 c2 rest).creates } := by
            simp [reconcileCategory, hc2]
          rw [hch2]
          simp [reconcileCategory, hc, ih hrest]

/-- C8: the whole channel-reconciliation pass is idempotent: with the four
category counts unchanged, running it again on the channel list it produced
issues zero rename calls and zero create calls and leaves every channel
name as it is. -/
theorem c8_reconciliation_idempotent (cf cs cj cl : Nat) (channels : List Str) :
    updateVoiceChannelNames cf cs cj cl
        (updateVoiceChannelNames cf cs cj cl channels).channels =
      { channels := (updateVoiceChannelNames cf cs cj cl channels).channels,
        renames := 0, creates := 0 } := by
  have hFS : ∀ n m, matchesPattern (chars "Films disponibles")
      (newChannelName (chars "Series disponibles") n) = false ∧
      matchesPattern (chars "Series disponibles")
      (newChannelName (chars "Films disponibles") m) = false := fun n m =>
    ⟨matchesPattern_newChannelName_ne 'F' 'S' (chars "ilms disponibles")
        (chars "eries disponibles") n (by decide),
     matchesPattern_newChannelName_ne 'S' 'F' (chars "eries disponibles")
        (chars "ilms disponibles") m (by decide)⟩
  have hFJ : ∀ n m, matchesPattern (chars "Films disponibles")
      (newChannelName (chars "Jeux disponibles") n) = false ∧
      matchesPattern (chars "Jeux disponibles")
      (newChannelName (chars "Films disponibles") m) = false := fun n m =>
    ⟨matchesPattern_newChannelName_ne 'F' 'J' (chars "ilms disponibles")
        (chars "eux disponibles") n (by decide),
     matchesPattern_newChannelName_ne 'J' 'F' (chars "eux disponibles")
        (chars "ilms disponibles") m (by decide)⟩
  have hFL : ∀ n m, matchesPattern (chars "Films disponibles")
      (newChannelName (chars "Logiciels disponibles") n) = false ∧
      matchesPattern (chars "Logiciels disponibles")
      (newChannelName (chars "Films disponibles") m) = false := fun n m =>
    ⟨matchesPattern_newChannelName_ne 'F' 'L' (chars "ilms disponibles")
        (chars "ogiciels disponibles") n (by decide),
     matchesPattern_newChannelName_ne 'L' 'F' (chars "ogiciels disponibles")
        (chars "ilms disponibles") m (by decide)⟩
  have hSJ : ∀ n m, matchesPattern (chars "Series disponibles")
      (newChannelName (chars "Jeux disponibles") n) = false ∧
      matchesPattern (chars "Jeux disponibles")
      (newChannelName (chars "Series disponibles") m) = false := fun n m =>
    ⟨matchesPattern_newChannelName_ne 'S' 'J' (chars "eries disponibles")
        (chars "eux disponibles") n (by decide),
     matchesPattern_newChannelName_ne 'J' 'S' (chars "eux disponibles")
        (chars "eries disponibles") m (by decide)⟩
  have hSL : ∀ n m, matchesPattern (chars "Series disponibles")
      (newChannelName (chars "Logiciels disponibles") n) = false ∧
      matchesPattern (chars "Logiciels disponibles")
      (newChannelName (chars "Series disponibles") m) = false := fun n m =>
    ⟨matchesPattern_newChannelName_ne 'S' 'L' (chars "eries disponibles")
        (chars "ogiciels disponibles") n (by decide),
     matchesPattern_newChannelName_ne 'L' 'S' (chars "ogiciels disponibles")
        (chars "eries disponibles") m (by decide)⟩
  have hJL : ∀ n m, matchesPattern (chars "Jeux disponibles")
      (newChannelName (chars "Logiciels disponibles") n) = false ∧
      matchesPattern (chars "Logiciels disponibles")
      (newChannelName (chars "Jeux disponibles") m) = false := fun n m =>
    ⟨matchesPattern_newChannelName_ne 'J' 'L' (chars "eux disponibles")
        (chars "ogiciels disponibles") n (by decide),
     matchesPattern_newChannelName_ne 'L' 'J' (chars "ogiciels disponibles")
        (chars "eux disponibles") m (by decide)⟩
  set l1 := (reconcileCategory (chars "Films disponibles") cf channels).channels with hl1
  set l2 := (reconcileCategory (chars "Series disponibles") cs l1).channels with hl2
  set l3 := (reconcileCategory (chars "Jeux disponibles") cj l2).channels with hl3
  set l4 := (reconcileCategory (chars "Logiciels disponibles") cl l3).channels with hl4
  have hF4 : reconcileCategory (chars "Films disponibles") cf l4 =
      { channels := l4, renames := 0, creates := 0 } := by
    have a1 := reconcileCategory_fixpoint (chars "Films disponibles") cf channels
    have a2 := reconcileCategory_stable _ _ cf cs (hFS cs cf).1 (hFS cs cf).2 l1 a1
    have a3 := reconcileCategory_stable _ _ cf cj (hFJ cj cf).1 (hFJ cj cf).2 l2 a2
    exact reconcileCategory_stable _ _ cf cl (hFL cl cf).1 (hFL cl cf).2 l3 a3
  have hS4 : reconcileCategory (chars "Series disponibles") cs l4 =
      { channels := l4, renames := 0, creates := 0 } := by
    have a2 := reconcileCategory_fixpoint (chars "Series disponibles") cs l1
    have a3 := reconcileCategory_stable _ _ cs cj (hSJ cj cs).1 (hSJ cj cs).2 l2 a2
    exact reconcileCategory_stable _ _ cs cl (hSL cl cs).1 (hSL cl cs).2 l3 a3
  have hJ4 : reconcileCategory (chars "Jeux disponibles") cj l4 =
      { channels := l4, renames := 0, creates := 0 } := by
    have a3 := reconcileCategory_fixpoint (chars "Jeux disponibles") cj l2
    exact reconcileCategory_stable _ _ cj cl (hJL cl cj).1 (hJL cl cj).2 l3 a3
  have hL4 : reconcileCategory (chars "Logiciels disponibles") cl l4 =
      { channels := l4, renames := 0, creates := 0 } :=
    reconcileCategory_fixpoint (chars "Logiciels disponibles") cl l3
  show updateVoiceChannelNames cf cs cj cl l4 =
    { channels := l4, renames := 0, creates := 0 }
  unfold updateVoiceChannelNames
  rw [hF4]
  simp only []
  rw [hS4]
  simp only []
  rw [hJ4]
  simp only []
  rw [hL4]
  rfl

/-- C6 (witness): rating 0 on a concrete singleton store is rejected and
persists nothing. -/
theorem c6_rating_out_of_range_rejected_witness :
    ratingSubmit [(chars "a", { url := some (chars "u") })] (chars "a") 0 = .outOfRange ∧
    ratingPersisted [(chars "a", { url := some (chars "u") })] (chars "a") 0 =
      [(chars "a", { url := some (chars "u") })] :=
  c6_rating_out_of_range_rejected [(chars "a", { url := some (chars "u") })] (chars "a") 0
    (Or.inl (by decide))

end NetflipsBot
